import Mathlib

/-!
Verification development for the ChatbotX repository.

The embedded code:
* `ChatInterface` — the WebSocket chat panel
  (`src/frontend/src/components/Chat/ChatInterface.tsx`): its local
  component state, the five socket-event handlers installed by
  `initializeConnection`, and the user actions (`sendMessage`,
  `handleQuickReply`, form submit, input editing, fullscreen/settings
  toggles), modelled as a step function over an explicit state record.
  Nondeterministic inputs of the browser (fresh `Math.random` ids, the
  current time) are passed as explicit parameters of each step.
* `chatSlice` — the chat Redux slice (reducers over its `ChatState`).
* `coursesSlice` — the courses Redux slice from
  `src/frontend/src/store/store.ts` (reducers, in particular
  `filterCourses` and `clearFilters`).
-/

namespace ChatbotX

/-- A `{ title, payload }` record used for both `buttons` and
`quick_replies` entries of a message. -/
structure QR where
  title : String
  payload : String
  deriving DecidableEq, Repr

/-- The `sender` field of a message: `'user' | 'bot'`. -/
inductive Sender where
  | user
  | bot
  deriving DecidableEq, Repr

/-- Opaque stand-in for the untyped `metadata: any` field; the code never
inspects it, only stores and forwards it. -/
abbrev Meta := String

/-- The `Message` interface of `ChatInterface.tsx` (and of the chat Redux
slice, which declares the same shape). Timestamps (`new Date()`) are
modelled as naturals. -/
structure Message where
  id : String
  text : String
  sender : Sender
  timestamp : Nat
  buttons : Option (List QR) := none
  quick_replies : Option (List QR) := none
  suggestions : Option (List String) := none
  metadata : Option Meta := none
  deriving DecidableEq, Repr

namespace ChatInterface

/-- The `ChatState` record of the `ChatInterface` component
(`useState<ChatState>`). -/
structure ChatState where
  messages : List Message
  isTyping : Bool
  isConnected : Bool
  currentLanguage : String
  isFullscreen : Bool
  showSettings : Bool
  deriving DecidableEq, Repr

/-- The initial component state passed to `useState<ChatState>`. -/
def initialChatState : ChatState :=
  { messages := []
    isTyping := false
    isConnected := false
    currentLanguage := "en"
    isFullscreen := false
    showSettings := false }

/-- The full mutable state of the component: the `ChatState`, the
`inputMessage` field, and whether `socketRef.current` is set (the socket
object itself carries no state the handlers read). -/
structure CompState where
  chatState : ChatState
  inputMessage : String
  socketRef : Option Unit
  deriving DecidableEq, Repr

/-- The object passed to `socketRef.current.emit('message', …)`: sender is
the `clientId`, plus the message text, the optional button payload, and a
`{ timestamp, language }` metadata object. -/
structure EmitMessage where
  sender : String
  message : String
  payload : Option String
  metaTimestamp : Nat
  metaLanguage : String
  deriving DecidableEq, Repr

/-- The payload `data` of a `bot_response` socket event. -/
structure BotData where
  text : String
  buttons : Option (List QR) := none
  quick_replies : Option (List QR) := none
  suggestions : Option (List String) := none
  metadata : Option Meta := none
  deriving DecidableEq, Repr

/-- `addMessage`: `setChatState(prev => ({ ...prev, messages:
[...prev.messages, message] }))`. -/
def addMessage (s : ChatState) (m : Message) : ChatState :=
  { s with messages := s.messages ++ [m] }

/-- Executable model of JavaScript `String.prototype.trim()`: drop
whitespace characters from both ends (Lean's own `String.trim` is not
kernel-reducible, so the embedding defines trimming over the character
list directly). -/
def jsTrim (s : String) : String :=
  ⟨((s.data.dropWhile Char.isWhitespace).reverse.dropWhile
      Char.isWhitespace).reverse⟩

/-- One elementary effect of `sendMessage`, in the order the source
performs them: a state update or an `emit` to the server. -/
inductive Effect where
  | appendMessage (m : Message)
  | setInput (s : String)
  | setIsTyping (b : Bool)
  | emit (e : EmitMessage)
  deriving DecidableEq, Repr

/-- The effect trace of `sendMessage(message, payload?)`, transcribed in
source order: the guard `if (!message.trim() || !socketRef.current)
return;`, then `addMessage(userMessage)`, `setInputMessage('')`,
`setChatState(... isTyping: true)`, and finally
`socketRef.current.emit('message', …)`. `freshId` stands for
`Math.random().toString(36)` and `now` for `new Date()`. -/
def sendMessageEffects (st : CompState) (clientId : String)
    (message : String) (payload : Option String)
    (freshId : String) (now : Nat) : List Effect :=
  if jsTrim message = "" ∨ st.socketRef = none then []
  else
    [ Effect.appendMessage
        { id := freshId, text := message, sender := Sender.user,
          timestamp := now },
      Effect.setInput "",
      Effect.setIsTyping true,
      Effect.emit
        { sender := clientId, message := message, payload := payload,
          metaTimestamp := now,
          metaLanguage := st.chatState.currentLanguage } ]

/-- Applying one effect to the component state (`emit` leaves the local
state unchanged). -/
def applyEffect (st : CompState) : Effect → CompState
  | Effect.appendMessage m =>
      { st with chatState := addMessage st.chatState m }
  | Effect.setInput s => { st with inputMessage := s }
  | Effect.setIsTyping b =>
      { st with chatState := { st.chatState with isTyping := b } }
  | Effect.emit _ => st

/-- The events a trace of effects sends to the server, in order. -/
def emitsOf (effs : List Effect) : List EmitMessage :=
  effs.filterMap fun e =>
    match e with
    | Effect.emit m => some m
    | _ => none

/-- `sendMessage`: the new component state and the list of `message`
events emitted to the server. -/
def sendMessage (st : CompState) (clientId : String)
    (message : String) (payload : Option String)
    (freshId : String) (now : Nat) : CompState × List EmitMessage :=
  let effs := sendMessageEffects st clientId message payload freshId now
  (effs.foldl applyEffect st, emitsOf effs)

/-- `handleQuickReply = (title, payload) => sendMessage(title, payload)`;
both quick-reply chips and action buttons call it. -/
def handleQuickReply (st : CompState) (clientId : String)
    (title : String) (payload : String)
    (freshId : String) (now : Nat) : CompState × List EmitMessage :=
  sendMessage st clientId title (some payload) freshId now

/-- The welcome message the `connect` handler appends. -/
def welcomeMessage (freshId : String) (now : Nat) : Message :=
  { id := freshId
    text := "👋 Welcome to ChatBotX! I'm your AI Education Assistant. How can I help you today?"
    sender := Sender.bot
    timestamp := now
    quick_replies := some
      [ { title := "Browse Courses", payload := "/courses" },
        { title := "Enrollment Help", payload := "/enrollment" },
        { title := "FAQ", payload := "/faq" },
        { title := "Contact Support", payload := "/support" } ] }

/-- The bot message the `bot_response` handler appends from the event
payload. -/
def botMessage (d : BotData) (freshId : String) (now : Nat) : Message :=
  { id := freshId
    text := d.text
    sender := Sender.bot
    timestamp := now
    buttons := d.buttons
    quick_replies := d.quick_replies
    suggestions := d.suggestions
    metadata := d.metadata }

/-- The socket event names `initializeConnection` registers handlers for,
in registration order. -/
def registeredEvents : List String :=
  ["connect", "disconnect", "bot_response", "typing", "system"]

/-- One step of the chat panel: a socket event delivered by the library,
or a user action. Fresh ids and timestamps are explicit parameters. -/
inductive Step where
  | evConnect (freshId : String) (now : Nat)
  | evDisconnect
  | evBotResponse (d : BotData) (freshId : String) (now : Nat)
  | evTyping (is_typing : Bool)
  | evSystem (message_type : String) (message : String)
  | actSubmit (freshId : String) (now : Nat)
  | actQuickReply (title : String) (payload : String)
      (freshId : String) (now : Nat)
  | actSetInput (s : String)
  | actToggleFullscreen
  | actSetShowSettings (b : Bool)
  deriving DecidableEq, Repr

/-- The step function of the chat panel: each arm transcribes the
corresponding handler of `ChatInterface.tsx`. `system` events only raise
toasts; fullscreen/settings/input actions touch only their own fields;
form submission calls `sendMessage(inputMessage)` with no payload. -/
def step (st : CompState) (clientId : String) :
    Step → CompState × List EmitMessage
  | Step.evConnect freshId now =>
      let cs := { st.chatState with isConnected := true }
      ({ st with chatState := addMessage cs (welcomeMessage freshId now) },
       [])
  | Step.evDisconnect =>
      ({ st with chatState :=
          { st.chatState with isConnected := false } }, [])
  | Step.evBotResponse d freshId now =>
      let cs := { st.chatState with isTyping := false }
      ({ st with chatState := addMessage cs (botMessage d freshId now) },
       [])
  | Step.evTyping b =>
      ({ st with chatState := { st.chatState with isTyping := b } }, [])
  | Step.evSystem _ _ => (st, [])
  | Step.actSubmit freshId now =>
      sendMessage st clientId st.inputMessage none freshId now
  | Step.actQuickReply title payload freshId now =>
      handleQuickReply st clientId title payload freshId now
  | Step.actSetInput s => ({ st with inputMessage := s }, [])
  | Step.actToggleFullscreen =>
      ({ st with chatState :=
          { st.chatState with isFullscreen := !st.chatState.isFullscreen } },
       [])
  | Step.actSetShowSettings b =>
      ({ st with chatState :=
          { st.chatState with showSettings := b } }, [])

/-- The component state right after mount: initial `ChatState`, empty
input, and `socketRef.current` set by `initializeConnection`. -/
def initComp : CompState :=
  { chatState := initialChatState
    inputMessage := ""
    socketRef := some () }

/-- What `renderMessage` puts on screen for one record: the React `key`,
the side/avatar choice, the markdown body, the displayed timestamp, the
listen button (bot only), and the quick-reply chips and action buttons
(each wired to `handleQuickReply(title, payload)`). -/
structure RenderedMessage where
  key : String
  isUser : Bool
  markdownText : String
  shownTimestamp : Nat
  hasListenButton : Bool
  quickReplyChips : Option (List QR)
  actionButtons : Option (List QR)
  deriving DecidableEq, Repr

/-- `renderMessage`, transcribed from the JSX: every displayed datum is a
direct projection of the record. -/
def renderMessage (m : Message) : RenderedMessage :=
  { key := m.id
    isUser := m.sender == Sender.user
    markdownText := m.text
    shownTimestamp := m.timestamp
    hasListenButton := m.sender == Sender.bot
    quickReplyChips := m.quick_replies
    actionButtons := m.buttons }

/-- The messages area: `chatState.messages.map(renderMessage)`. -/
def renderedMessages (s : ChatState) : List RenderedMessage :=
  s.messages.map renderMessage

end ChatInterface

namespace chatSlice

/-- The `ChatState` of the chat Redux slice (note: a different record
from the component's local `ChatState`; it adds `sessionId` and
`conversationHistory`). -/
structure ChatState where
  messages : List Message
  isTyping : Bool
  isConnected : Bool
  currentLanguage : String
  sessionId : Option String
  conversationHistory : List Message
  deriving DecidableEq, Repr

/-- `initialState` of the chat slice. -/
def initialState : ChatState :=
  { messages := []
    isTyping := false
    isConnected := false
    currentLanguage := "en"
    sessionId := none
    conversationHistory := [] }

/-- The actions of the chat slice, one per reducer. -/
inductive Action where
  | addMessage (m : Message)
  | setTyping (b : Bool)
  | setConnected (b : Bool)
  | setLanguage (s : String)
  | setSessionId (s : String)
  | clearMessages
  | clearHistory
  deriving DecidableEq, Repr

/-- The chat-slice reducer, each arm transcribed from
`chatSlice.reducers` (Immer `push` becomes append, assignment becomes a
field update). -/
def reducer (st : ChatState) : Action → ChatState
  | Action.addMessage m =>
      { st with messages := st.messages ++ [m],
                conversationHistory := st.conversationHistory ++ [m] }
  | Action.setTyping b => { st with isTyping := b }
  | Action.setConnected b => { st with isConnected := b }
  | Action.setLanguage s => { st with currentLanguage := s }
  | Action.setSessionId s => { st with sessionId := some s }
  | Action.clearMessages => { st with messages := [] }
  | Action.clearHistory => { st with conversationHistory := [] }

end chatSlice

namespace coursesSlice

/-- The `Course` interface of the courses slice. JavaScript numbers are
modelled as naturals (`price`, counters); the `level` and `status`
string-union types as strings, matching the string comparisons the
reducers perform. -/
structure Course where
  id : String
  course_code : String
  title : String
  description : String
  category : String
  duration : String
  price : Nat
  currency : String
  level : String
  status : String
  max_students : Nat
  enrolled_students : Nat
  instructor : String
  start_date : String
  end_date : String
  schedule : String
  created_at : String
  updated_at : String
  deriving DecidableEq, Repr

/-- The `filters` sub-record of `CoursesState`. -/
structure Filters where
  category : String
  level : String
  priceRange : Nat × Nat
  searchQuery : String
  deriving DecidableEq, Repr

/-- The `pagination` sub-record of `CoursesState`. -/
structure Pagination where
  page : Nat
  limit : Nat
  total : Nat
  deriving DecidableEq, Repr

/-- The `CoursesState` of the courses slice. -/
structure CoursesState where
  courses : List Course
  filteredCourses : List Course
  selectedCourse : Option Course
  categories : List String
  isLoading : Bool
  error : Option String
  filters : Filters
  pagination : Pagination
  deriving DecidableEq, Repr

/-- The default `filters` value (also what `clearFilters` resets to). -/
def defaultFilters : Filters :=
  { category := ""
    level := ""
    priceRange := (0, 1000)
    searchQuery := "" }

/-- `initialState` of the courses slice. -/
def initialState : CoursesState :=
  { courses := []
    filteredCourses := []
    selectedCourse := none
    categories := []
    isLoading := false
    error := none
    filters := defaultFilters
    pagination := { page := 1, limit := 12, total := 0 } }

/-- Payload of `setFilters` (`Partial<CoursesState['filters']>`): each
field optionally present. -/
structure PartialFilters where
  category : Option String := none
  level : Option String := none
  priceRange : Option (Nat × Nat) := none
  searchQuery : Option String := none
  deriving DecidableEq, Repr

/-- Payload of `setPagination` (`Partial<CoursesState['pagination']>`). -/
structure PartialPagination where
  page : Option Nat := none
  limit : Option Nat := none
  total : Option Nat := none
  deriving DecidableEq, Repr

/-- The actions of the courses slice, one per reducer. -/
inductive Action where
  | setCourses (cs : List Course)
  | setSelectedCourse (c : Course)
  | setCategories (cats : List String)
  | setLoading (b : Bool)
  | setError (e : String)
  | setFilters (p : PartialFilters)
  | setPagination (p : PartialPagination)
  | filterCourses
  | clearFilters
  deriving DecidableEq, Repr

/-- `{ ...state.filters, ...action.payload }`. -/
def mergeFilters (f : Filters) (p : PartialFilters) : Filters :=
  { category := p.category.getD f.category
    level := p.level.getD f.level
    priceRange := p.priceRange.getD f.priceRange
    searchQuery := p.searchQuery.getD f.searchQuery }

/-- `{ ...state.pagination, ...action.payload }`. -/
def mergePagination (g : Pagination) (p : PartialPagination) : Pagination :=
  { page := p.page.getD g.page
    limit := p.limit.getD g.limit
    total := p.total.getD g.total }

/-- `needle.isPrefixOf hay` over character lists, written out so it
kernel-reduces. -/
def charsHasPref : List Char → List Char → Bool
  | [], _ => true
  | _ :: _, [] => false
  | a :: t₁, b :: t₂ => a == b && charsHasPref t₁ t₂

/-- Substring occurrence over character lists. -/
def charsIncl (hay needle : List Char) : Bool :=
  match hay with
  | [] => needle.isEmpty
  | _ :: t => charsHasPref needle hay || charsIncl t needle

/-- Executable model of JavaScript `haystack.includes(needle)`. -/
def jsIncludes (hay needle : String) : Bool :=
  charsIncl hay.data needle.data

/-- Executable model of JavaScript `s.toLowerCase()` (Lean's own
`String.toLower` is not kernel-reducible, so lower-casing is mapped over
the character list directly). -/
def jsToLower (s : String) : String :=
  ⟨s.data.map Char.toLower⟩

/-- The search-query predicate of `filterCourses`: the lower-cased query
occurs in the lower-cased title, description, or instructor. -/
def matchesQuery (query : String) (c : Course) : Bool :=
  jsIncludes (jsToLower c.title) query ||
  jsIncludes (jsToLower c.description) query ||
  jsIncludes (jsToLower c.instructor) query

/-- The `filterCourses` reducer, transcribed filter by filter in source
order: category (when non-empty), level (when non-empty), price range
(always), search query (when non-empty); then `filteredCourses` and
`pagination.total` are assigned. JS truthiness of a string is
non-emptiness. -/
def filterCoursesFn (st : CoursesState) : CoursesState :=
  let filtered := st.courses
  let filtered :=
    if st.filters.category = "" then filtered
    else filtered.filter fun c => c.category == st.filters.category
  let filtered :=
    if st.filters.level = "" then filtered
    else filtered.filter fun c => c.level == st.filters.level
  let filtered :=
    filtered.filter fun c =>
      decide (st.filters.priceRange.1 ≤ c.price) &&
      decide (c.price ≤ st.filters.priceRange.2)
  let filtered :=
    if st.filters.searchQuery = "" then filtered
    else
      let query := jsToLower st.filters.searchQuery
      filtered.filter (matchesQuery query)
  { st with filteredCourses := filtered,
            pagination := { st.pagination with total := filtered.length } }

/-- The courses-slice reducer, each arm transcribed from
`coursesSlice.reducers`. -/
def reducer (st : CoursesState) : Action → CoursesState
  | Action.setCourses cs =>
      { st with courses := cs, filteredCourses := cs,
                isLoading := false, error := none }
  | Action.setSelectedCourse c => { st with selectedCourse := some c }
  | Action.setCategories cats => { st with categories := cats }
  | Action.setLoading b => { st with isLoading := b }
  | Action.setError e => { st with error := some e, isLoading := false }
  | Action.setFilters p => { st with filters := mergeFilters st.filters p }
  | Action.setPagination p =>
      { st with pagination := mergePagination st.pagination p }
  | Action.filterCourses => filterCoursesFn st
  | Action.clearFilters =>
      { st with filters := defaultFilters, filteredCourses := st.courses }

end coursesSlice

namespace ChatInterface

/-- C1: for every input whose trimmed form is non-empty, when the socket
reference is set, `sendMessage` performs — in source order — the optimistic
local append of the user record, the input reset, the typing flag, and
only then a single `message` emit carrying
`{sender: clientId, message, payload, metadata}`; the appended record is
already in the resulting local message list, independent of any server
reply (no server input occurs in the step). -/
theorem C1_sendMessage_optimistic_insert_then_emit
    (st : CompState) (clientId message : String) (payload : Option String)
    (freshId : String) (now : Nat)
    (h₁ : jsTrim message ≠ "") (h₂ : st.socketRef = some ()) :
    sendMessageEffects st clientId message payload freshId now =
      [ Effect.appendMessage
          { id := freshId, text := message, sender := Sender.user,
            timestamp := now },
        Effect.setInput "",
        Effect.setIsTyping true,
        Effect.emit
          { sender := clientId, message := message, payload := payload,
            metaTimestamp := now,
            metaLanguage := st.chatState.currentLanguage } ] ∧
    (sendMessage st clientId message payload freshId now).1.chatState.messages
      = st.chatState.messages ++
        [{ id := freshId, text := message, sender := Sender.user,
           timestamp := now }] ∧
    (sendMessage st clientId message payload freshId now).2
      = [{ sender := clientId, message := message, payload := payload,
           metaTimestamp := now,
           metaLanguage := st.chatState.currentLanguage }] := by
  have hc : ¬ (jsTrim message = "" ∨ st.socketRef = none) := by
    simp [h₁, h₂]
  refine ⟨?_, ?_, ?_⟩ <;>
    simp [sendMessage, sendMessageEffects, hc, emitsOf, applyEffect,
      addMessage]

/-- Witness for C1 at a concrete input: the initial component state, the
message `"hello"`. -/
theorem C1_witness :
    (sendMessage initComp "c" "hello" none "m1" 5).1.chatState.messages
      = [{ id := "m1", text := "hello", sender := Sender.user,
           timestamp := 5 }] ∧
    (sendMessage initComp "c" "hello" none "m1" 5).2
      = [{ sender := "c", message := "hello", payload := none,
           metaTimestamp := 5, metaLanguage := "en" }] := by
  have h := C1_sendMessage_optimistic_insert_then_emit initComp "c" "hello"
    none "m1" 5 (by decide) rfl
  exact ⟨h.2.1, h.2.2⟩

/-- C7: activating a quick reply or action button `{title, payload}`
calls `handleQuickReply`, which forwards to `sendMessage(title, payload)`:
a user record with text equal to the title is appended, and a single
`message` event is emitted whose `message` is the title and whose
`payload` is the button's payload. (The guard of `sendMessage` is
assumed satisfied: the title is non-blank and the socket is set; the
degenerate guarded cases are the no-op behaviour proved separately.) -/
theorem C7_quick_reply_prefilled_send
    (st : CompState) (clientId title payload freshId : String) (now : Nat)
    (h₁ : jsTrim title ≠ "") (h₂ : st.socketRef = some ()) :
    (handleQuickReply st clientId title payload freshId now).1.chatState.messages
      = st.chatState.messages ++
        [{ id := freshId, text := title, sender := Sender.user,
           timestamp := now }] ∧
    (handleQuickReply st clientId title payload freshId now).2
      = [{ sender := clientId, message := title, payload := some payload,
           metaTimestamp := now,
           metaLanguage := st.chatState.currentLanguage }] := by
  have hc : ¬ (jsTrim title = "" ∨ st.socketRef = none) := by
    simp [h₁, h₂]
  refine ⟨?_, ?_⟩ <;>
    simp [handleQuickReply, sendMessage, sendMessageEffects, hc, emitsOf,
      applyEffect, addMessage]

/-- Witness for C7 at a concrete input: the welcome quick reply
`{ title: 'Browse Courses', payload: '/courses' }` on the initial
component state. -/
theorem C7_witness :
    (handleQuickReply initComp "c" "Browse Courses" "/courses" "m1"
        7).1.chatState.messages
      = [{ id := "m1", text := "Browse Courses", sender := Sender.user,
           timestamp := 7 }] ∧
    (handleQuickReply initComp "c" "Browse Courses" "/courses" "m1" 7).2
      = [{ sender := "c", message := "Browse Courses",
           payload := some "/courses", metaTimestamp := 7,
           metaLanguage := "en" }] :=
  C7_quick_reply_prefilled_send initComp "c" "Browse Courses" "/courses"
    "m1" 7 (by decide) rfl

/-- C8: when the message trims to the empty string or the socket
reference is null, `sendMessage` is a no-op: the whole component state
(message list, typing flag, input field included) is unchanged and the
emitted-event list is empty. -/
theorem C8_sendMessage_noop
    (st : CompState) (clientId message : String) (payload : Option String)
    (freshId : String) (now : Nat)
    (h : jsTrim message = "" ∨ st.socketRef = none) :
    sendMessage st clientId message payload freshId now = (st, []) := by
  simp [sendMessage, sendMessageEffects, h, emitsOf]

/-- Witness for C8 at a concrete input: an all-whitespace message on the
initial component state. -/
theorem C8_witness :
    sendMessage initComp "c" "   " none "m1" 0 = (initComp, []) :=
  C8_sendMessage_noop initComp "c" "   " none "m1" 0 (Or.inl (by decide))

/-- Helper: the state `sendMessage` leaves behind, with the guard split
out explicitly. -/
theorem sendMessage_state_eq (st : CompState) (clientId message : String)
    (payload : Option String) (freshId : String) (now : Nat) :
    (sendMessage st clientId message payload freshId now).1 =
      if jsTrim message = "" ∨ st.socketRef = none then st
      else
        { st with
          chatState :=
            { st.chatState with
              messages := st.chatState.messages ++
                [{ id := freshId, text := message, sender := Sender.user,
                   timestamp := now }],
              isTyping := true },
          inputMessage := "" } := by
  by_cases h : jsTrim message = "" ∨ st.socketRef = none <;>
    simp [sendMessage, sendMessageEffects, h, applyEffect, addMessage]

/-- C2 as stated is false for the chat Redux slice: `clearMessages` on a
state holding one message empties the list, which is not the previous
list with records appended. -/
theorem C2_counterexample_clearMessages :
    ¬ ∃ t, (chatSlice.reducer
        { chatSlice.initialState with
            messages :=
              [{ id := "w", text := "hi", sender := Sender.user,
                 timestamp := 0 }],
            conversationHistory :=
              [{ id := "w", text := "hi", sender := Sender.user,
                 timestamp := 0 }] }
        chatSlice.Action.clearMessages).messages
      = [{ id := "w", text := "hi", sender := Sender.user,
           timestamp := 0 }] ++ t := by
  rintro ⟨t, h⟩
  simp [chatSlice.reducer, chatSlice.initialState] at h

/-- C2 amended: every chat-panel step leaves the component's message list
equal to the previous list with zero or more records appended, and so
does every chat-slice action other than `clearMessages`; `clearMessages`
resets messages to the empty list. -/
theorem C2_amended_append_only
    (cst : CompState) (clientId : String) (s : Step)
    (rst : chatSlice.ChatState) (a : chatSlice.Action)
    (ha : a ≠ chatSlice.Action.clearMessages) :
    (∃ t, (step cst clientId s).1.chatState.messages
        = cst.chatState.messages ++ t) ∧
    (∃ t, (chatSlice.reducer rst a).messages = rst.messages ++ t) ∧
    (chatSlice.reducer rst chatSlice.Action.clearMessages).messages
      = [] := by
  refine ⟨?_, ?_, by simp [chatSlice.reducer]⟩
  · cases s with
    | evConnect freshId now =>
        exact ⟨[welcomeMessage freshId now], by simp [step, addMessage]⟩
    | evDisconnect => exact ⟨[], by simp [step]⟩
    | evBotResponse d freshId now =>
        exact ⟨[botMessage d freshId now], by simp [step, addMessage]⟩
    | evTyping b => exact ⟨[], by simp [step]⟩
    | evSystem mt m => exact ⟨[], by simp [step]⟩
    | actSubmit freshId now =>
        by_cases h : jsTrim cst.inputMessage = "" ∨ cst.socketRef = none
        · exact ⟨[], by simp [step, sendMessage_state_eq, h]⟩
        · exact ⟨[{ id := freshId, text := cst.inputMessage,
                    sender := Sender.user, timestamp := now }], by
            simp [step, sendMessage_state_eq, h]⟩
    | actQuickReply title payload freshId now =>
        by_cases h : jsTrim title = "" ∨ cst.socketRef = none
        · exact ⟨[], by
            simp [step, handleQuickReply, sendMessage_state_eq, h]⟩
        · exact ⟨[{ id := freshId, text := title, sender := Sender.user,
                    timestamp := now }], by
            simp [step, handleQuickReply, sendMessage_state_eq, h]⟩
    | actSetInput s' => exact ⟨[], by simp [step]⟩
    | actToggleFullscreen => exact ⟨[], by simp [step]⟩
    | actSetShowSettings b => exact ⟨[], by simp [step]⟩
  · cases a with
    | addMessage m => exact ⟨[m], by simp [chatSlice.reducer]⟩
    | setTyping b => exact ⟨[], by simp [chatSlice.reducer]⟩
    | setConnected b => exact ⟨[], by simp [chatSlice.reducer]⟩
    | setLanguage s' => exact ⟨[], by simp [chatSlice.reducer]⟩
    | setSessionId s' => exact ⟨[], by simp [chatSlice.reducer]⟩
    | clearMessages => exact absurd rfl ha
    | clearHistory => exact ⟨[], by simp [chatSlice.reducer]⟩

/-- Witness for the amended C2 at a concrete input: a `disconnect` panel
step and a `setTyping` slice action. -/
theorem C2_witness :
    (∃ t, (step initComp "c" Step.evDisconnect).1.chatState.messages
        = initComp.chatState.messages ++ t) ∧
    (∃ t, (chatSlice.reducer chatSlice.initialState
        (chatSlice.Action.setTyping true)).messages
        = chatSlice.initialState.messages ++ t) ∧
    (chatSlice.reducer chatSlice.initialState
        chatSlice.Action.clearMessages).messages = [] :=
  C2_amended_append_only initComp "c" Step.evDisconnect
    chatSlice.initialState (chatSlice.Action.setTyping true) (by decide)

/-- C3 as stated is false: steps other than `typing` events change the
typing flag — a quick-reply send on the freshly mounted component flips
`isTyping` from `false` to `true` (the `bot_response` handler likewise
sets it to `false`). -/
theorem C3_counterexample_send_sets_typing :
    ¬ ∀ (st : CompState) (clientId : String) (s : Step),
        (∀ b, s ≠ Step.evTyping b) →
        (step st clientId s).1.chatState.isTyping
          = st.chatState.isTyping := by
  intro h
  have h' := h initComp "c" (Step.actQuickReply "hi" "/x" "m1" 0)
    (by intro b; simp)
  exact absurd h' (by decide)

/-- C3 amended: the typing flag is set to the payload by `typing` events,
set to `false` by `bot_response` events, set to `true` by a submit or
quick reply that passes `sendMessage`'s guard, and unchanged by every
other step; in particular, after a sequence whose last typing-flag change
was a `typing` event with payload `b`, the flag equals `b`. -/
theorem C3_amended_isTyping_characterization
    (st : CompState) (clientId : String) (s : Step) :
    (step st clientId s).1.chatState.isTyping =
      match s with
      | Step.evTyping b => b
      | Step.evBotResponse _ _ _ => false
      | Step.actSubmit _ _ =>
          if jsTrim st.inputMessage = "" ∨ st.socketRef = none
          then st.chatState.isTyping else true
      | Step.actQuickReply title _ _ _ =>
          if jsTrim title = "" ∨ st.socketRef = none
          then st.chatState.isTyping else true
      | _ => st.chatState.isTyping := by
  cases s <;>
    simp only [step, handleQuickReply, sendMessage_state_eq, addMessage] <;>
    first
    | rfl
    | (split_ifs with h <;> simp)

/-- C4: `initializeConnection` registers handlers for exactly the five
socket events `connect`, `disconnect`, `bot_response`, `typing`,
`system`; a `bot_response` event appends exactly one bot record carrying
the payload's text, buttons, quick replies, suggestions and metadata; a
`system` event leaves the whole component state (message list included)
unchanged. -/
theorem C4_five_events_and_bot_response :
    registeredEvents =
      ["connect", "disconnect", "bot_response", "typing", "system"] ∧
    (∀ (st : CompState) (clientId : String) (d : BotData)
        (freshId : String) (now : Nat),
      (step st clientId
          (Step.evBotResponse d freshId now)).1.chatState.messages
        = st.chatState.messages ++
          [{ id := freshId, text := d.text, sender := Sender.bot,
             timestamp := now, buttons := d.buttons,
             quick_replies := d.quick_replies,
             suggestions := d.suggestions, metadata := d.metadata }]) ∧
    (∀ (st : CompState) (clientId mt m : String),
      (step st clientId (Step.evSystem mt m)).1 = st) := by
  refine ⟨rfl, ?_, ?_⟩
  · intro st clientId d freshId now
    simp [step, addMessage, botMessage]
  · intro st clientId mt m
    simp [step]

/-- C5: the connection-status boolean is initially `false`, becomes
`true` on every `connect` event, `false` on every `disconnect` event,
and is changed by no other step. -/
theorem C5_isConnected_lifecycle :
    initialChatState.isConnected = false ∧
    ∀ (st : CompState) (clientId : String) (s : Step),
      (step st clientId s).1.chatState.isConnected =
        match s with
        | Step.evConnect _ _ => true
        | Step.evDisconnect => false
        | _ => st.chatState.isConnected := by
  refine ⟨rfl, ?_⟩
  intro st clientId s
  cases s <;>
    simp only [step, handleQuickReply, sendMessage_state_eq, addMessage] <;>
    first
    | rfl
    | (split_ifs with h <;> simp)

/-- C6: the messages area renders `chatState.messages.map(renderMessage)`
— one rendered entry per record, in the order the records sit in the
list, with no reordering, filtering or duplication: the rendered list has
the same length and its `i`-th entry is the rendering of the `i`-th
record. -/
theorem C6_render_in_insertion_order (s : ChatState) :
    renderedMessages s = s.messages.map renderMessage ∧
    (renderedMessages s).length = s.messages.length ∧
    ∀ i : Nat, (renderedMessages s)[i]? = (s.messages[i]?).map renderMessage := by
  refine ⟨rfl, by simp [renderedMessages], ?_⟩
  intro i
  simp [renderedMessages]

end ChatInterface

namespace chatSlice

/-- C9: `addMessage` appends its payload to both `messages` and
`conversationHistory`; no other action modifies `messages` except
`clearMessages` (which empties it) and none modifies
`conversationHistory` except `clearHistory` (which empties it); hence a
fold over any action sequence containing neither clearing action keeps
`messages` equal to `conversationHistory` whenever they start equal. -/
theorem C9_chatSlice_history_sync :
    (∀ (st : ChatState) (m : Message),
      (reducer st (Action.addMessage m)).messages = st.messages ++ [m] ∧
      (reducer st (Action.addMessage m)).conversationHistory
        = st.conversationHistory ++ [m]) ∧
    (∀ (st : ChatState) (a : Action),
      (∀ m, a ≠ Action.addMessage m) → a ≠ Action.clearMessages →
      (reducer st a).messages = st.messages) ∧
    (∀ (st : ChatState) (a : Action),
      (∀ m, a ≠ Action.addMessage m) → a ≠ Action.clearHistory →
      (reducer st a).conversationHistory = st.conversationHistory) ∧
    (∀ (st : ChatState),
      (reducer st Action.clearMessages).messages = [] ∧
      (reducer st Action.clearHistory).conversationHistory = []) ∧
    (∀ (acts : List Action) (st : ChatState),
      Action.clearMessages ∉ acts → Action.clearHistory ∉ acts →
      st.messages = st.conversationHistory →
      (acts.foldl reducer st).messages
        = (acts.foldl reducer st).conversationHistory) := by
  refine ⟨fun st m => ⟨rfl, rfl⟩, ?_, ?_, fun st => ⟨rfl, rfl⟩, ?_⟩
  · intro st a hm hc
    cases a with
    | addMessage m => exact absurd rfl (hm m)
    | clearMessages => exact absurd rfl hc
    | _ => rfl
  · intro st a hm hc
    cases a with
    | addMessage m => exact absurd rfl (hm m)
    | clearHistory => exact absurd rfl hc
    | _ => rfl
  · intro acts
    induction acts with
    | nil => intro st _ _ h; exact h
    | cons a t ih =>
        intro st h₁ h₂ h₃
        rw [List.foldl_cons]
        refine ih (reducer st a)
          (fun hm => h₁ (List.mem_cons_of_mem a hm))
          (fun hm => h₂ (List.mem_cons_of_mem a hm)) ?_
        cases a with
        | addMessage m => simp [reducer, h₃]
        | setTyping b => exact h₃
        | setConnected b => exact h₃
        | setLanguage s => exact h₃
        | setSessionId s => exact h₃
        | clearMessages => exact absurd (List.mem_cons_self _ _) h₁
        | clearHistory => exact absurd (List.mem_cons_self _ _) h₂

/-- Witness for C9 at a concrete input: a two-action sequence (an
`addMessage` then a `setTyping`) starting from the initial slice state
keeps `messages` and `conversationHistory` equal. -/
theorem C9_witness :
    (([Action.addMessage
         { id := "w", text := "hi", sender := Sender.user, timestamp := 0 },
       Action.setTyping true].foldl reducer initialState).messages
      = ([Action.addMessage
            { id := "w", text := "hi", sender := Sender.user,
              timestamp := 0 },
          Action.setTyping true].foldl reducer initialState).conversationHistory) :=
  C9_chatSlice_history_sync.2.2.2.2
    [Action.addMessage
       { id := "w", text := "hi", sender := Sender.user, timestamp := 0 },
     Action.setTyping true]
    initialState (by decide) (by decide) rfl

end chatSlice

namespace coursesSlice

/-- The predicate the claim describes, written from its words (the
refinement target `filterCourses` is compared against): price within the
inclusive range, and conformance to each of the category, level and
search-query filters whenever that filter is non-empty. -/
def matchesFilters (f : Filters) (c : Course) : Bool :=
  (if f.category = "" then true else c.category == f.category) &&
  (if f.level = "" then true else c.level == f.level) &&
  (decide (f.priceRange.1 ≤ c.price) &&
    decide (c.price ≤ f.priceRange.2)) &&
  (if f.searchQuery = "" then true
   else matchesQuery (jsToLower f.searchQuery) c)

/-- C10: `filterCourses` sets `filteredCourses` to the in-order
subsequence (a `List.filter`, hence a sublist) of `courses` satisfying
the combined predicate — the price-range test always applied, the
category, level and search-query tests applied when non-empty — and sets
`pagination.total` to its length; `clearFilters` instead resets the
filters and sets `filteredCourses` to the full `courses` list, without
applying the (reset) price range. -/
theorem C10_filterCourses_characterization (st : CoursesState) :
    (reducer st Action.filterCourses).filteredCourses
      = st.courses.filter (matchesFilters st.filters) ∧
    List.Sublist (reducer st Action.filterCourses).filteredCourses
      st.courses ∧
    (reducer st Action.filterCourses).pagination.total
      = (reducer st Action.filterCourses).filteredCourses.length ∧
    (reducer st Action.clearFilters).filteredCourses = st.courses ∧
    (reducer st Action.clearFilters).filters = defaultFilters := by
  have hmain :
      (reducer st Action.filterCourses).filteredCourses
        = st.courses.filter (matchesFilters st.filters) := by
    simp only [reducer, filterCoursesFn]
    split_ifs <;>
      (try simp only [List.filter_filter]) <;>
      (refine List.filter_congr fun c _ => ?_) <;>
      simp_all [matchesFilters, Bool.and_assoc, Bool.and_comm,
        Bool.and_left_comm]
  refine ⟨hmain, ?_, ?_, rfl, rfl⟩
  · rw [hmain]; exact List.filter_sublist st.courses
  · simp only [reducer, filterCoursesFn]

end coursesSlice

end ChatbotX
